import Mathlib

/-
Verification of the Freshdesk v2 API client wrapper (src/lib/utils.js).

The development shallowly embeds the request/response translation layer:
`createResponseHandler` (classification of HTTP responses into callback
outcomes) and `makeRequest` (header/body construction, transport call,
exception catching).  JavaScript values appearing in bodies are modelled by
`JVal`; a JavaScript exception is a `JsError`; the single callback invocation
performed by the handler is a `CbCall`; a handler that throws is modelled by
`Except JsError CbCall`.
-/

set_option autoImplicit false

namespace Freshdesk

/-- JSON-style JavaScript values, as they occur in parsed response bodies and
request bodies.  `null` stands for the JavaScript `null` (and, where a value
is absent, `undefined` is modelled by `Option`). -/
inductive JVal where
  | null
  | bool (b : Bool)
  | num (n : Int)
  | str (s : String)
  | arr (elems : List JVal)
  | obj (fields : List (String × JVal))

/-- JavaScript truthiness of a `JVal`, used by `message || default` in the
`FreshdeskError` constructor. -/
def jsTruthy : JVal → Bool
  | .null => false
  | .bool b => b
  | .num n => n != 0
  | .str s => s != ""
  | .arr _ => true
  | .obj _ => true

/-- First-match lookup of a key in a JavaScript object represented as an
association list (JS object keys are distinct). -/
def lookupField : List (String × JVal) → String → Option JVal
  | [], _ => none
  | (k, v) :: rest, key => if k = key then some v else lookupField rest key

/-- A generic JavaScript exception: a thrown `TypeError` (null property
access), a transport-level error from the HTTP library, or a JSON parse
failure from `response.body.json()`. -/
inductive JsError where
  | typeError (msg : String)
  | transportError (msg : String)
  | jsonParseError (msg : String)

/-- The two response headers the client consumes (`link`, `x-request-id`),
plus the status code.  A header is present iff the `Option` is `some`;
the source checks presence with a `typeof ... === "string"` test. -/
structure Resp where
  statusCode : Nat
  link : Option String
  xRequestId : Option String

/-- The request descriptor built by `makeRequest` and handed to the error
constructor: `req.method` and `req.path` (the URL pathname). -/
structure Req where
  method : String
  path : String

/-- The `extra` metadata object passed to the callback on success:
`pageIsLast`, `requestId` and the `_headersLink` field (present only when a
`Link` header was seen). -/
structure Extra where
  pageIsLast : Bool
  requestId : String
  headersLink : Option String

/-- Builds the `extra` object exactly as `createResponseHandler` does:
`pageIsLast` starts `true` and is set `false` iff `response.headers.link` is
a string; `requestId` starts `""` and is overwritten iff
`response.headers["x-request-id"]` is a string. -/
def mkExtra (response : Resp) : Extra :=
  { pageIsLast := response.link.isNone
    requestId := response.xRequestId.getD ""
    headersLink := response.link }

/-- The data carried by a constructed `FreshdeskError`: message, raw parsed
body (`data`), HTTP status, `apiTarget` (method and path) and the upstream
request id header. -/
structure FreshdeskError where
  message : JVal
  data : JVal
  status : Nat
  apiTarget : String
  requestId : Option String

/-- The fixed fallback message of the `FreshdeskError` constructor. -/
def defaultErrMsg : JVal := .str "Error in Freshdesk's client API"

/-- The `FreshdeskError` constructor.  `message` is an arbitrary JavaScript
value (`none` models `undefined`); `this.message = message || default`
falls back to `defaultErrMsg` on any falsy value. -/
def mkFreshdeskError (message : Option JVal) (data : JVal) (res : Resp)
    (req : Req) : FreshdeskError :=
  { message := match message with
      | some v => if jsTruthy v then v else defaultErrMsg
      | none => defaultErrMsg
    data := data
    status := res.statusCode
    apiTarget := req.method ++ " " ++ req.path
    requestId := res.xRequestId }

/-- JavaScript property access `body.description` on a parsed body: throws a
`TypeError` when the body is `null`, yields the field (or `undefined`,
modelled as `none`) on an object, and `undefined` on any other value. -/
def getField : JVal → String → Except JsError (Option JVal)
  | .null, _ => .error (.typeError "Cannot read properties of null")
  | .obj fields, key => .ok (lookupField fields key)
  | _, _ => .ok none

/-- The single argument with which the handler invokes the callback on the
error position: either a generic JavaScript error or a constructed
`FreshdeskError`. -/
inductive CbError where
  | generic (e : JsError)
  | protocol (e : FreshdeskError)

/-- The one invocation of the callback `cb` performed by the handler:
`cb(error)` or `cb(null, body, extra)`. -/
inductive CbCall where
  | err (e : CbError)
  | success (body : JVal) (extra : Extra)

/-- `createResponseHandler(cb)` applied to `(error, response, body, request)`.
The result is the callback invocation, or `.error e` when the handler body
itself throws (which happens exactly when the default `switch` branch reads
`body.description` off a `null` body).  The `switch` on
`response.statusCode` is translated as a chain of equality tests. -/
def createResponseHandler (error : Option JsError) (response : Resp)
    (body : JVal) (request : Req) : Except JsError CbCall :=
  match error with
  | some e => .ok (.err (.generic e))
  | none =>
    let extra := mkExtra response
    if response.statusCode = 200 then .ok (.success body extra)
    else if response.statusCode = 201 then .ok (.success body extra)
    else if response.statusCode = 204 then .ok (.success .null extra)
    else if response.statusCode = 404 then
      .ok (.err (.protocol (mkFreshdeskError
        (some (.str "The requested entity was not found")) body response request)))
    else
      match getField body "description" with
      | .error e => .error e
      | .ok d => .ok (.err (.protocol (mkFreshdeskError d body response request)))

/-- Whether a handler result is a success callback invocation. -/
def isSuccess : Except JsError CbCall → Bool
  | .ok (.success _ _) => true
  | _ => false

/-- Whether a handler result is a callback invocation with a
`FreshdeskError`. -/
def isProtocolError : Except JsError CbCall → Bool
  | .ok (.err (.protocol _)) => true
  | _ => false

/-- The request body placed in `options.body`: either the JSON serialization
of a value (`JSON.stringify(data)`, kept symbolically) or a multipart form,
a sequence of appended `(key, value)` parts. -/
inductive BodyEnc where
  | json (data : JVal)
  | form (parts : List (String × JVal))

/-- The `options` object built by `makeRequest` (the fields the claims
concern: method, the two headers, query and body). -/
structure RequestOptions where
  method : String
  contentType : String
  authorization : String
  query : List (String × String)
  body : Option BodyEnc

/-- `"attachments" in data && Array.isArray(data.attachments)`: the key is
present and its value is an array. -/
def hasAttachments (data : List (String × JVal)) : Bool :=
  match lookupField data "attachments" with
  | some (.arr _) => true
  | _ => false

/-- The form built by the loop over `Object.keys(data)` in insertion order:
an array-valued field is appended once per element under the key with `[]`
appended; any other field is appended once under its own key. -/
def buildForm : List (String × JVal) → List (String × JVal)
  | [] => []
  | (k, .arr elems) :: rest => elems.map (fun v => (k ++ "[]", v)) ++ buildForm rest
  | (k, v) :: rest => (k, v) :: buildForm rest

/-- The header/body construction of `makeRequest`: Content-Type starts as
`application/json` and Authorization is always set; when a body is present
it is form-encoded (with multipart Content-Type) iff it has an
`attachments` array, and JSON-stringified otherwise. -/
def buildOptions (method auth : String) (qs : List (String × String))
    (data : Option (List (String × JVal))) : RequestOptions :=
  let base : RequestOptions :=
    { method := method
      contentType := "application/json"
      authorization := auth
      query := qs
      body := none }
  match data with
  | none => base
  | some d =>
    if hasAttachments d then
      { base with contentType := "multipart/form-data"
                  body := some (.form (buildForm d)) }
    else
      { base with body := some (.json (.obj d)) }

/-- The outcome of the awaited transport call inside `makeRequest`:
either a response, whose body is absent (`none`), fails JSON parsing
(`some (.error e)`), or parses (`some (.ok v)`); or a network/transport
failure thrown by `request(url, options)`. -/
inductive TransportResult where
  | ok (resp : Resp) (bodyParse : Option (Except JsError JVal))
  | netFail (e : JsError)

/-- The `try` block of `makeRequest`: await the transport, compute
`data = response.body ? await response.body.json() : null` (a parse failure
or transport failure propagates as a thrown error) and run the response
handler on the result. -/
def tryBlock (tr : TransportResult) (req : Req) : Except JsError CbCall :=
  match tr with
  | .netFail e => .error e
  | .ok resp bodyParse =>
    match bodyParse with
    | none => createResponseHandler none resp .null req
    | some (.error e) => .error e
    | some (.ok v) => createResponseHandler none resp v req

/-- A `Resp` standing for the non-response object passed on the catch path;
the handler never inspects it there because the error argument is truthy. -/
def dummyResp : Resp := { statusCode := 0, link := none, xRequestId := none }

/-- `makeRequest`: builds the options and request descriptor, runs the try
block, and on a thrown error runs the catch.  Every error caught here
(undici transport errors, the handler TypeError, JSON parse errors) carries
no `response` or `request` property, so only the final else-branch of the
catch is reachable: it invokes the handler with the truthy error, which
returns `cb(error)` without touching its response argument.  The first
component is the options sent to the transport; the second is the overall
result (`.error` would mean an exception escaped `makeRequest`). -/
def makeRequest (method auth : String) (path : String)
    (qs : List (String × String)) (data : Option (List (String × JVal)))
    (tr : TransportResult) : RequestOptions × Except JsError CbCall :=
  let options := buildOptions method auth qs data
  let req : Req := { method := method, path := path }
  (options,
    match tryBlock tr req with
    | .ok c => .ok c
    | .error e => createResponseHandler (some e) dummyResp .null req)

/-! ## Helper lemmas -/

/-- A truthy error argument makes the handler call the callback with that
error immediately, whatever the other arguments are. -/
theorem handler_truthy_error (e : JsError) (response : Resp) (body : JVal)
    (request : Req) :
    createResponseHandler (some e) response body request
      = .ok (.err (.generic e)) := rfl

/-- `hasAttachments` holds exactly when the body has an array-valued
`attachments` field. -/
theorem hasAttachments_iff (d : List (String × JVal)) :
    hasAttachments d = true ↔
      ∃ files, lookupField d "attachments" = some (.arr files) := by
  unfold hasAttachments
  cases h : lookupField d "attachments" with
  | none => simp
  | some v => cases v <;> simp

/-- Characterization of the form-building loop: each field contributes its
elements under the `[]`-suffixed key when array-valued, and itself
otherwise. -/
theorem buildForm_eq_bind (d : List (String × JVal)) :
    buildForm d = d.flatMap (fun kv =>
      match kv.2 with
      | .arr elems => elems.map (fun v => (kv.1 ++ "[]", v))
      | _ => [kv]) := by
  induction d with
  | nil => rfl
  | cons kv rest ih =>
    obtain ⟨k, v⟩ := kv
    cases v <;> simp [buildForm, ih]

/-! ## Claims -/

/-- C1: a response with HTTP status 200 or 201 yields a success callback
with the parsed body as payload, and a response with status 204 a success
callback with a null body, both with the standard metadata. -/
theorem c1_success_classification (resp : Resp) (body : JVal) (req : Req) :
    ((resp.statusCode = 200 ∨ resp.statusCode = 201) →
      createResponseHandler none resp body req
        = .ok (.success body (mkExtra resp))) ∧
    (resp.statusCode = 204 →
      createResponseHandler none resp body req
        = .ok (.success .null (mkExtra resp))) := by
  constructor
  · rintro (h | h) <;> simp [createResponseHandler, h]
  · intro h; simp [createResponseHandler, h]

/-- C1 witness: concrete 200 and 204 responses. -/
theorem c1_witness :
    (createResponseHandler none ⟨200, none, none⟩ (.num 1) ⟨"GET", "/api/v2/tickets"⟩
      = .ok (.success (.num 1) (mkExtra ⟨200, none, none⟩))) ∧
    (createResponseHandler none ⟨204, none, none⟩ (.num 1) ⟨"DELETE", "/api/v2/tickets/1"⟩
      = .ok (.success .null (mkExtra ⟨204, none, none⟩))) :=
  ⟨(c1_success_classification ⟨200, none, none⟩ (.num 1)
      ⟨"GET", "/api/v2/tickets"⟩).1 (Or.inl rfl),
   (c1_success_classification ⟨204, none, none⟩ (.num 1)
      ⟨"DELETE", "/api/v2/tickets/1"⟩).2 rfl⟩

/-- C3: a 404 response, whatever its body, yields a `FreshdeskError` with
the fixed not-found message, carrying the raw body, status 404, the
`apiTarget` request identifier, and the upstream request id header. -/
theorem c3_notFound_classification (resp : Resp) (body : JVal) (req : Req)
    (h : resp.statusCode = 404) :
    createResponseHandler none resp body req
      = .ok (.err (.protocol
          { message := .str "The requested entity was not found"
            data := body
            status := 404
            apiTarget := req.method ++ " " ++ req.path
            requestId := resp.xRequestId })) := by
  obtain ⟨sc, link, xr⟩ := resp
  simp only at h
  subst h
  rfl

/-- C3 witness: a concrete 404 response with a non-empty body. -/
theorem c3_witness :
    createResponseHandler none ⟨404, none, some "abc123"⟩
        (.obj [("message", .str "whatever")]) ⟨"GET", "/api/v2/contacts/9"⟩
      = .ok (.err (.protocol
          { message := .str "The requested entity was not found"
            data := .obj [("message", .str "whatever")]
            status := 404
            apiTarget := "GET" ++ " " ++ "/api/v2/contacts/9"
            requestId := some "abc123" })) :=
  c3_notFound_classification ⟨404, none, some "abc123"⟩
    (.obj [("message", .str "whatever")]) ⟨"GET", "/api/v2/contacts/9"⟩ rfl

/-- C5: on the success path the pagination flag `pageIsLast` is `false`
exactly when a `Link` response header is present, and `true` when it is
absent. -/
theorem c5_pagination_flag (resp : Resp) (body : JVal) (req : Req)
    (h : resp.statusCode = 200 ∨ resp.statusCode = 201 ∨ resp.statusCode = 204) :
    (∃ b, createResponseHandler none resp body req
        = .ok (.success b (mkExtra resp))) ∧
    ((mkExtra resp).pageIsLast = false ↔ resp.link.isSome) := by
  constructor
  · rcases h with h | h | h
    · exact ⟨body, by simp [createResponseHandler, h]⟩
    · exact ⟨body, by simp [createResponseHandler, h]⟩
    · exact ⟨.null, by simp [createResponseHandler, h]⟩
  · cases hl : resp.link <;> simp [mkExtra, hl]

/-- C5 witness: a 200 response with a `Link` header has `pageIsLast = false`,
and one without has `pageIsLast = true`. -/
theorem c5_witness :
    ((mkExtra ⟨200, some "rel=next", none⟩).pageIsLast = false ↔
      (Option.some "rel=next").isSome) ∧
    (mkExtra ⟨200, none, none⟩).pageIsLast = true :=
  ⟨(c5_pagination_flag ⟨200, some "rel=next", none⟩ .null ⟨"GET", "/t"⟩
      (Or.inl rfl)).2,
   rfl⟩

/-- C6: when an `x-request-id` header is present, its value becomes the
`requestId` both in the success metadata and in the `FreshdeskError` on the
error path. -/
theorem c6_requestId_propagation (resp : Resp) (body : JVal) (req : Req)
    (rid : String) (h : resp.xRequestId = some rid) :
    (mkExtra resp).requestId = rid ∧
    ((resp.statusCode = 200 ∨ resp.statusCode = 201 ∨ resp.statusCode = 204) →
      ∃ b, createResponseHandler none resp body req
        = .ok (.success b (mkExtra resp))) ∧
    (resp.statusCode = 404 →
      ∃ fe, createResponseHandler none resp body req
          = .ok (.err (.protocol fe)) ∧ fe.requestId = some rid) := by
  refine ⟨by simp [mkExtra, h], ?_, ?_⟩
  · rintro (hs | hs | hs)
    · exact ⟨body, by simp [createResponseHandler, hs]⟩
    · exact ⟨body, by simp [createResponseHandler, hs]⟩
    · exact ⟨.null, by simp [createResponseHandler, hs]⟩
  · intro hs
    refine ⟨mkFreshdeskError (some (.str "The requested entity was not found"))
      body resp req, ?_, ?_⟩
    · simp [createResponseHandler, hs]
    · simp [mkFreshdeskError, h]

/-- C6 witness: header `x-request-id: abc123` appears in the success
metadata of a 200 response and in the error of a 404 response. -/
theorem c6_witness :
    ((mkExtra ⟨200, none, some "abc123"⟩).requestId = "abc123") ∧
    (∃ fe, createResponseHandler none ⟨404, none, some "abc123"⟩ .null ⟨"GET", "/x"⟩
        = .ok (.err (.protocol fe)) ∧ fe.requestId = some "abc123") :=
  ⟨(c6_requestId_propagation ⟨200, none, some "abc123"⟩ .null ⟨"GET", "/x"⟩
      "abc123" rfl).1,
   (c6_requestId_propagation ⟨404, none, some "abc123"⟩ .null ⟨"GET", "/x"⟩
      "abc123" rfl).2.2 rfl⟩

/-- C2 counterexample: a 409 response whose parsed body is `null` does not
yield a `FreshdeskError` at all — reading `body.description` throws, the
exception is caught, and the callback receives the generic `TypeError`. -/
theorem c2_counterexample :
    isProtocolError (makeRequest "PUT" "auth" "/api/v2/tickets/1" [] none
        (.ok ⟨409, none, none⟩ (some (.ok .null)))).2 = false ∧
    (makeRequest "PUT" "auth" "/api/v2/tickets/1" [] none
        (.ok ⟨409, none, none⟩ (some (.ok .null)))).2
      = .ok (.err (.generic (.typeError "Cannot read properties of null"))) :=
  ⟨rfl, rfl⟩

/-- C2 (amended): a response whose status is not 200, 201, 204 or 404 and
whose parsed body is an object with a non-empty string `description` yields
a `FreshdeskError` with that description as message; and no status other
than 200, 201 and 204 ever yields a success outcome. -/
theorem c2_error_classification (resp : Resp) (req : Req)
    (o : List (String × JVal)) (s : String)
    (h200 : resp.statusCode ≠ 200) (h201 : resp.statusCode ≠ 201)
    (h204 : resp.statusCode ≠ 204) (h404 : resp.statusCode ≠ 404)
    (hd : lookupField o "description" = some (.str s)) (hs : s ≠ "") :
    createResponseHandler none resp (.obj o) req
      = .ok (.err (.protocol
          { message := .str s
            data := .obj o
            status := resp.statusCode
            apiTarget := req.method ++ " " ++ req.path
            requestId := resp.xRequestId })) ∧
    (∀ (r : Resp) (b : JVal) (q : Req),
      r.statusCode ≠ 200 → r.statusCode ≠ 201 → r.statusCode ≠ 204 →
      isSuccess (createResponseHandler none r b q) = false) := by
  constructor
  · simp [createResponseHandler, h200, h201, h204, h404, getField, hd,
      mkFreshdeskError, jsTruthy, hs]
  · intro r b q hr200 hr201 hr204
    unfold createResponseHandler
    simp only [if_neg hr200, if_neg hr201, if_neg hr204]
    split
    · rfl
    · rcases hg : getField b "description" with e | d <;> simp [hg, isSuccess]

/-- C2 witness: a 409 response with body `{description: "Duplicate value"}`
yields a `FreshdeskError` carrying that description. -/
theorem c2_witness :
    createResponseHandler none ⟨409, none, some "abc123"⟩
        (.obj [("description", .str "Duplicate value")]) ⟨"POST", "/api/v2/contacts"⟩
      = .ok (.err (.protocol
          { message := .str "Duplicate value"
            data := .obj [("description", .str "Duplicate value")]
            status := 409
            apiTarget := "POST" ++ " " ++ "/api/v2/contacts"
            requestId := some "abc123" })) :=
  (c2_error_classification ⟨409, none, some "abc123"⟩ ⟨"POST", "/api/v2/contacts"⟩
    [("description", .str "Duplicate value")] "Duplicate value"
    (by decide) (by decide) (by decide) (by decide) rfl (by decide)).1

/-- C4: with a body present, Authorization is always set; a body with an
array-valued `attachments` field is sent as a multipart form whose parts
are each array field expanded element-wise under the `[]`-suffixed key and
each other field under its own key; any other body is JSON-serialized with
Content-Type `application/json`. -/
theorem c4_body_encoding (method auth path : String)
    (qs : List (String × String)) (d : List (String × JVal))
    (tr : TransportResult) :
    ((makeRequest method auth path qs (some d) tr).1.authorization = auth) ∧
    ((∃ files, lookupField d "attachments" = some (.arr files)) →
      (makeRequest method auth path qs (some d) tr).1.contentType
          = "multipart/form-data" ∧
      (makeRequest method auth path qs (some d) tr).1.body
        = some (.form (d.flatMap (fun kv =>
            match kv.2 with
            | .arr elems => elems.map (fun v => (kv.1 ++ "[]", v))
            | _ => [kv])))) ∧
    ((∀ files, lookupField d "attachments" ≠ some (.arr files)) →
      (makeRequest method auth path qs (some d) tr).1.contentType
          = "application/json" ∧
      (makeRequest method auth path qs (some d) tr).1.body
        = some (.json (.obj d))) := by
  refine ⟨?_, ?_, ?_⟩
  · cases hA : hasAttachments d <;>
      simp [makeRequest, buildOptions, hA]
  · intro hex
    have hA : hasAttachments d = true := (hasAttachments_iff d).2 hex
    rw [← buildForm_eq_bind]
    constructor <;> simp [makeRequest, buildOptions, hA]
  · intro hall
    have hA : hasAttachments d = false := by
      cases h : hasAttachments d with
      | false => rfl
      | true =>
        obtain ⟨files, hf⟩ := (hasAttachments_iff d).1 h
        exact absurd hf (hall files)
    constructor <;> simp [makeRequest, buildOptions, hA]

/-- C4 witness: a body with `attachments: [file1]` and an array `tags`
field is multipart-encoded with the expected parts; a body without
`attachments` is JSON-encoded. -/
theorem c4_witness :
    ((makeRequest "POST" "auth" "/api/v2/tickets" []
        (some [("subject", .str "hi"),
               ("attachments", .arr [.str "file1"]),
               ("tags", .arr [.str "a", .str "b"])])
        (.netFail (.transportError "down"))).1.contentType
        = "multipart/form-data" ∧
      (makeRequest "POST" "auth" "/api/v2/tickets" []
        (some [("subject", .str "hi"),
               ("attachments", .arr [.str "file1"]),
               ("tags", .arr [.str "a", .str "b"])])
        (.netFail (.transportError "down"))).1.body
        = some (.form [("subject", .str "hi"),
                       ("attachments[]", .str "file1"),
                       ("tags[]", .str "a"), ("tags[]", .str "b")])) ∧
    ((makeRequest "POST" "auth" "/api/v2/tickets" []
        (some [("subject", .str "hi")])
        (.netFail (.transportError "down"))).1.contentType
        = "application/json" ∧
      (makeRequest "POST" "auth" "/api/v2/tickets" []
        (some [("subject", .str "hi")])
        (.netFail (.transportError "down"))).1.body
        = some (.json (.obj [("subject", .str "hi")]))) :=
  ⟨(c4_body_encoding "POST" "auth" "/api/v2/tickets" []
      [("subject", .str "hi"), ("attachments", .arr [.str "file1"]),
       ("tags", .arr [.str "a", .str "b"])]
      (.netFail (.transportError "down"))).2.1 ⟨[.str "file1"], rfl⟩,
   (c4_body_encoding "POST" "auth" "/api/v2/tickets" []
      [("subject", .str "hi")]
      (.netFail (.transportError "down"))).2.2
      (by intro files h; exact Option.noConfusion h)⟩

/-- C7 counterexample: a 200 response whose body fails JSON parsing is not
treated as a null body classified by status — the parse error is delivered
to the callback as a generic error instead of a success outcome. -/
theorem c7_counterexample :
    (makeRequest "GET" "auth" "/api/v2/tickets" [] none
        (.ok ⟨200, none, none⟩ (some (.error (.jsonParseError "Unexpected token"))))).2
      = .ok (.err (.generic (.jsonParseError "Unexpected token"))) ∧
    isSuccess (makeRequest "GET" "auth" "/api/v2/tickets" [] none
        (.ok ⟨200, none, none⟩ (some (.error (.jsonParseError "Unexpected token"))))).2
      = false :=
  ⟨rfl, rfl⟩

/-- C7 (amended): an absent response body is treated exactly like a null
body and classified by status as usual; a body that fails JSON parsing does
not hard-fail either, but its parse error is delivered to the callback as a
generic error, bypassing status classification. -/
theorem c7_body_tolerance (method auth path : String)
    (qs : List (String × String)) (data : Option (List (String × JVal)))
    (resp : Resp) (e : JsError) :
    ((makeRequest method auth path qs data (.ok resp none)).2
      = (makeRequest method auth path qs data (.ok resp (some (.ok .null)))).2) ∧
    ((makeRequest method auth path qs data (.ok resp (some (.error e)))).2
      = .ok (.err (.generic e))) :=
  ⟨rfl, rfl⟩

/-- C8: every network/transport failure is delivered through the callback
as a generic error wrapping the transport exception, and for every
transport outcome the callback is invoked exactly once — no exception
escapes `makeRequest`. -/
theorem c8_callback_totality (method auth path : String)
    (qs : List (String × String)) (data : Option (List (String × JVal))) :
    (∀ e : JsError, (makeRequest method auth path qs data (.netFail e)).2
        = .ok (.err (.generic e))) ∧
    (∀ tr : TransportResult,
        ∃ c, (makeRequest method auth path qs data tr).2 = .ok c) := by
  constructor
  · intro e; rfl
  · intro tr
    cases tr with
    | netFail e => exact ⟨.err (.generic e), rfl⟩
    | ok resp bodyParse =>
      rcases bodyParse with _ | ⟨e | v⟩
      · rcases hh : createResponseHandler none resp .null ⟨method, path⟩
          with e2 | c
        · exact ⟨.err (.generic e2),
            by simp [makeRequest, tryBlock, hh, handler_truthy_error]⟩
        · exact ⟨c, by simp [makeRequest, tryBlock, hh]⟩
      · exact ⟨.err (.generic e), rfl⟩
      · rcases hh : createResponseHandler none resp v ⟨method, path⟩
          with e2 | c
        · exact ⟨.err (.generic e2),
            by simp [makeRequest, tryBlock, hh, handler_truthy_error]⟩
        · exact ⟨c, by simp [makeRequest, tryBlock, hh]⟩

/-- C9: on the default status branch (not 200, 201, 204 or 404), a null
parsed body never produces a success outcome — the caller receives a
generic error through the callback — and a body with no fields produces a
`FreshdeskError` (with the default message) through the callback. -/
theorem c9_default_branch_safety (method auth path : String)
    (qs : List (String × String)) (data : Option (List (String × JVal)))
    (resp : Resp)
    (h200 : resp.statusCode ≠ 200) (h201 : resp.statusCode ≠ 201)
    (h204 : resp.statusCode ≠ 204) (h404 : resp.statusCode ≠ 404) :
    (∃ ge, (makeRequest method auth path qs data (.ok resp (some (.ok .null)))).2
        = .ok (.err (.generic ge))) ∧
    isSuccess (makeRequest method auth path qs data
        (.ok resp (some (.ok .null)))).2 = false ∧
    (makeRequest method auth path qs data (.ok resp (some (.ok (.obj []))))).2
      = .ok (.err (.protocol
          (mkFreshdeskError none (.obj []) resp ⟨method, path⟩))) := by
  have hnull : createResponseHandler none resp .null ⟨method, path⟩
      = .error (.typeError "Cannot read properties of null") := by
    simp [createResponseHandler, h200, h201, h204, h404, getField]
  have hobj : createResponseHandler none resp (.obj []) ⟨method, path⟩
      = .ok (.err (.protocol
          (mkFreshdeskError none (.obj []) resp ⟨method, path⟩))) := by
    simp [createResponseHandler, h200, h201, h204, h404, getField, lookupField]
  refine ⟨⟨.typeError "Cannot read properties of null", ?_⟩, ?_, ?_⟩
  · simp [makeRequest, tryBlock, hnull, handler_truthy_error]
  · simp [makeRequest, tryBlock, hnull, handler_truthy_error, isSuccess]
  · simp [makeRequest, tryBlock, hobj]

/-- C9 witness: a 500 response with a null body yields a generic error, and
one with an empty-object body a `FreshdeskError`. -/
theorem c9_witness :
    (∃ ge, (makeRequest "GET" "auth" "/api/v2/tickets" [] none
        (.ok ⟨500, none, none⟩ (some (.ok .null)))).2
        = .ok (.err (.generic ge))) ∧
    isSuccess (makeRequest "GET" "auth" "/api/v2/tickets" [] none
        (.ok ⟨500, none, none⟩ (some (.ok .null)))).2 = false ∧
    (makeRequest "GET" "auth" "/api/v2/tickets" [] none
        (.ok ⟨500, none, none⟩ (some (.ok (.obj []))))).2
      = .ok (.err (.protocol
          (mkFreshdeskError none (.obj []) ⟨500, none, none⟩
            ⟨"GET", "/api/v2/tickets"⟩))) :=
  c9_default_branch_safety "GET" "auth" "/api/v2/tickets" [] none
    ⟨500, none, none⟩ (by decide) (by decide) (by decide) (by decide)

/-- C10: a `FreshdeskError` constructed with a missing (`undefined`) or
empty-string message gets the fixed default message, and in particular a
non-success, non-404 response whose body has no `description` field yields
a `FreshdeskError` carrying the default message. -/
theorem c10_default_message (data : JVal) (res : Resp) (req : Req)
    (o : List (String × JVal)) (hd : lookupField o "description" = none)
    (h200 : res.statusCode ≠ 200) (h201 : res.statusCode ≠ 201)
    (h204 : res.statusCode ≠ 204) (h404 : res.statusCode ≠ 404) :
    (mkFreshdeskError none data res req).message
      = .str "Error in Freshdesk's client API" ∧
    (mkFreshdeskError (some (.str "")) data res req).message
      = .str "Error in Freshdesk's client API" ∧
    (∃ fe, createResponseHandler none res (.obj o) req
        = .ok (.err (.protocol fe)) ∧
      fe.message = .str "Error in Freshdesk's client API") := by
  refine ⟨rfl, rfl, mkFreshdeskError none (.obj o) res req, ?_, rfl⟩
  simp [createResponseHandler, h200, h201, h204, h404, getField, hd]

/-- C10 witness: a 400 response with body `{errors: []}` (no `description`)
yields a `FreshdeskError` with the default message. -/
theorem c10_witness :
    (mkFreshdeskError none .null ⟨400, none, none⟩ ⟨"POST", "/api/v2/tickets"⟩).message
      = .str "Error in Freshdesk's client API" ∧
    (∃ fe, createResponseHandler none ⟨400, none, none⟩
        (.obj [("errors", .arr [])]) ⟨"POST", "/api/v2/tickets"⟩
        = .ok (.err (.protocol fe)) ∧
      fe.message = .str "Error in Freshdesk's client API") :=
  ⟨(c10_default_message .null ⟨400, none, none⟩ ⟨"POST", "/api/v2/tickets"⟩
      [("errors", .arr [])] rfl (by decide) (by decide) (by decide) (by decide)).1,
   (c10_default_message .null ⟨400, none, none⟩ ⟨"POST", "/api/v2/tickets"⟩
      [("errors", .arr [])] rfl (by decide) (by decide) (by decide) (by decide)).2.2⟩

end Freshdesk
